import Mathlib

/-!
Shallow embedding of the persistent-client coordination core of
`claude-code-sdk-ts`:

* `src/persistent/controllable-promise.ts`  (Rendezvous primitive)
* `src/persistent/message-generator.ts`     (TurnFeeder)
* `src/persistent/persistent-cli-transport.ts` (ProcessSession)
* `src/persistent/persistent-client.ts`     (SessionClient)

Each definition carries a comment naming the source lines it embeds.
Stateful TypeScript is embedded as explicit state passing; JavaScript
promise settlement (a promise settles at most once; later `res`/`rej`
calls are no-ops) is modelled by an `Option` that is only written when
`none`.
-/

namespace PersistentSdk

/-- Decidable equality for `Except`, used to evaluate fallible operations
    of the model on concrete inputs. -/
instance {ε α : Type} [DecidableEq ε] [DecidableEq α] :
    DecidableEq (Except ε α) := fun a b =>
  match a, b with
  | Except.error e, Except.error f =>
      if h : e = f then isTrue (by rw [h])
      else isFalse (fun hc => by cases hc; exact h rfl)
  | Except.ok x, Except.ok y =>
      if h : x = y then isTrue (by rw [h])
      else isFalse (fun hc => by cases hc; exact h rfl)
  | Except.error _, Except.ok _ => isFalse (fun hc => by cases hc)
  | Except.ok _, Except.error _ => isFalse (fun hc => by cases hc)

/-- The three status values of `controllable-promise.ts` line 9 / line 30. -/
inductive Status where
  | pending
  | resolved
  | rejected
deriving DecidableEq

/-- Settlement of the underlying JS promise: it settles at most once. -/
inductive Settled (T : Type) where
  | ok (v : T)
  | err (e : String)
deriving DecidableEq

/--
Embedding of the object returned by `controllablePromise<T>()`
(`controllable-promise.ts` lines 27-49).

JavaScript semantics being embedded: the function body declares a local
variable `let status = 'pending'` (line 30); `resolve`/`reject` assign to
that local (lines 33-40); the returned object literal `{ promise, resolve,
reject, status }` (lines 43-48) copies the *current value* of the local
into the object's `status` property.  A string is a value in JavaScript,
so later assignments to the local never update the returned object's
property.  The embedding therefore keeps both:

* `status`    — the `status` property of the returned object (the only
                observable one; a creation-time snapshot);
* `statusVar` — the closure-captured local variable.
-/
structure ControllablePromise (T : Type) where
  status : Status
  statusVar : Status
  settled : Option (Settled T)
deriving DecidableEq

/-- `controllablePromise<T>()` (lines 27-49): local `status = 'pending'`
    (line 30), promise unsettled, object property copied at line 47. -/
def controllablePromise (T : Type) : ControllablePromise T :=
  { status := Status.pending, statusVar := Status.pending, settled := none }

/-- `resolve` (lines 33-36): sets the local variable to `'resolved'` and
    calls the promise's `res`, which settles the promise only if it is not
    yet settled.  The returned object's `status` property is untouched
    (nothing in the source writes to it). -/
def ControllablePromise.resolve (cp : ControllablePromise T) (v : T) :
    ControllablePromise T :=
  { cp with
    statusVar := Status.resolved
    settled := match cp.settled with
               | none => some (Settled.ok v)
               | some s => some s }

/-- `reject` (lines 37-40): sets the local variable to `'rejected'` and
    calls the promise's `rej`, settling only if unsettled. -/
def ControllablePromise.reject (cp : ControllablePromise T) (e : String) :
    ControllablePromise T :=
  { cp with
    statusVar := Status.rejected
    settled := match cp.settled with
               | none => some (Settled.err e)
               | some s => some s }

/--
State of the closure created by `createMessageGenerator()`
(`message-generator.ts` lines 70-165).

`slotId`/`nextSlotId` instrument object identity: each call to
`controllablePromise()` creates a distinct object; `slotId` is the
identity of the promise currently stored in `sendMessagePromise` and
`nextSlotId` the identity the next creation will receive.  `warnings`
records the `console.warn` calls (lines 129, 134), making the guard at
line 133 observable.
-/
structure FeederState where
  sendMessagePromise : ControllablePromise String
  slotId : Nat
  nextSlotId : Nat
  isTerminated : Bool
  warnings : List String
deriving DecidableEq

/-- `createMessageGenerator()` initial closure state (lines 71-73). -/
def createMessageGenerator : FeederState :=
  { sendMessagePromise := controllablePromise String
    slotId := 0
    nextSlotId := 1
    isTerminated := false
    warnings := [] }

/-- Install a fresh `controllablePromise()` into `sendMessagePromise`
    (the assignment appearing at lines 81, 99 and 118 of the source). -/
def installFreshSlot (fs : FeederState) : FeederState :=
  { fs with
    sendMessagePromise := controllablePromise String
    slotId := fs.nextSlotId
    nextSlotId := fs.nextSlotId + 1 }

/-- `setNextMessage` (`message-generator.ts` lines 127-140).  Note the
    guard at line 133 reads `sendMessagePromise.status`, i.e. the
    *object property* of the returned record. -/
def setNextMessage (fs : FeederState) (message : String) : FeederState :=
  if fs.isTerminated then
    { fs with warnings :=
        fs.warnings ++ ["Cannot set message: generator is terminated"] }
  else
    let fs' :=
      if fs.sendMessagePromise.status ≠ Status.pending then
        { (installFreshSlot fs) with warnings :=
            fs.warnings ++ ["Previous message not consumed yet"] }
      else fs
    { fs' with
      sendMessagePromise := fs'.sendMessagePromise.resolve message }

/-- `terminate` (lines 152-157): flips the flag; rejects the current slot
    when its *object property* `status` reads `'pending'`. -/
def feederTerminate (fs : FeederState) : FeederState :=
  let fs := { fs with isTerminated := true }
  if fs.sendMessagePromise.status = Status.pending then
    { fs with sendMessagePromise :=
        fs.sendMessagePromise.reject "Generator terminated" }
  else fs

/-- A user message as yielded at lines 102-105 of `message-generator.ts`. -/
structure UserMessage where
  type : String
  content : String
deriving DecidableEq

/-- Generator state: the feeder closure plus the instrumented list of slot
    identities whose settled value the generator has already awaited. -/
structure GenState where
  feeder : FeederState
  consumedSlots : List Nat
deriving DecidableEq

/-- The state of `generateMessages()` at its first suspension: line 81
    resets `sendMessagePromise` to a fresh `controllablePromise()` before
    the first `await`. -/
def genStart (fs : FeederState) : GenState :=
  { feeder := installFreshSlot fs, consumedSlots := [] }

/--
One iteration of the `while (true)` loop of `generateMessages()`
(`message-generator.ts` lines 83-120), driven by one external
`setNextMessage` call (the single-flight discipline of the client):

1. the external caller runs `setNextMessage m`, resolving the current
   slot (lines 127-140);
2. the generator's `await sendMessagePromise.promise` (line 86) returns
   the settled value — the slot whose identity is recorded as consumed;
3. `isTerminated` is checked (line 89);
4. a fresh `controllablePromise()` is installed (line 99) — *before* the
   `yield` at line 102, i.e. before the generator next suspends;
5. the `Turn` `{type: 'user', content: m}` is yielded (lines 102-105).

(The optional `onNewUserMessageResolved` hook at lines 94-96 is never set
by `PersistentClient` and is omitted.)
-/
def genIteration (g : GenState) (m : String) : GenState × Option UserMessage :=
  let f1 := setNextMessage g.feeder m
  if f1.isTerminated then
    ({ g with feeder := f1 }, none)
  else
    ({ feeder := installFreshSlot f1
       consumedSlots := g.consumedSlots ++ [f1.slotId] },
     some { type := "user", content := m })

/-- Run the generator against a list of externally submitted prompts,
    collecting the yielded turns. -/
def genRun (g : GenState) : List String → GenState × List UserMessage
  | [] => (g, [])
  | m :: ms =>
    match genIteration g m with
    | (g', some t) =>
      let (g'', ts) := genRun g' ms
      (g'', t :: ts)
    | (g', none) => (g', [])

/-- Invariant holding at every suspension point of the generator (the
    `await` at line 86 and the `yield` at line 102): the currently
    installed slot is a fresh pending `controllablePromise()` whose
    identity has never been consumed, and no identity was consumed
    twice. -/
def GenInv (g : GenState) : Prop :=
  g.feeder.sendMessagePromise = controllablePromise String ∧
  g.consumedSlots.Nodup ∧
  (∀ i ∈ g.consumedSlots, i < g.feeder.slotId) ∧
  g.feeder.slotId < g.feeder.nextSlotId

def fsA : FeederState := setNextMessage createMessageGenerator "a"

def fsB : FeederState := setNextMessage fsA "b"

/-- `ProcessState` (`persistent-cli-transport.ts` lines 15-23). -/
inductive ProcessState where
  | not_started
  | initializing
  | ready
  | processing
  | paused
  | terminating
  | terminated
  | error
deriving DecidableEq

/-- The fields of a parsed `CLIOutput` record that the coordination core
    inspects (`types.ts`: the `type` discriminator, the `subtype` and
    `session_id` of `CLISystemOutput`, the `error.message` of
    `CLIErrorOutput`); all other payload is opaque to the core. -/
structure CLIOutput where
  type : String
  subtype : Option String := none
  session_id : Option String := none
  errorMessage : Option String := none
deriving DecidableEq

/-- `PersistentTransportEvent` (`persistent-cli-transport.ts` lines 28-34),
    one constructor per `type` discriminator value. -/
inductive TransportEvent where
  | state_change (state : ProcessState)
  | message (message : CLIOutput)
  | error (errorMessage : String)
  | session_initialized (sessionId : String)
deriving DecidableEq

/-- The spawned subprocess handle.  `killed` is Node's
    `ChildProcess.killed`: set only by `kill()`, *not* by a natural exit;
    `exited` records that the process has exited (closing its stdout). -/
structure Subprocess where
  exited : Bool
  killed : Bool
deriving DecidableEq

/-- One chunk written to the subprocess's stdin, instrumented with the
    transport state at the moment of the write and at the moment the
    writer loop received the turn (before its `setState('processing')`). -/
structure StdinWrite where
  data : String
  stateAtWrite : ProcessState
  stateOnEntry : ProcessState
deriving DecidableEq

/-- Mutable fields of `PersistentCLITransport` (lines 43-54). -/
structure TransportState where
  state : ProcessState
  sessionId : Option String
  process : Option Subprocess
  stdinWrites : List StdinWrite
  stdinClosed : Bool
deriving DecidableEq

/-- Mutable fields of `PersistentClient` (lines 49-55).  `started` models
    `this.transport !== undefined`; `waitingForResult` the length of the
    `waitingForResult` resolver array. -/
structure ClientState where
  started : Bool
  messageCount : Nat
  pendingMessages : List CLIOutput
  waitingForResult : Nat
deriving DecidableEq

/-- Combined system state.  The client is the only subscriber the code
    registers (`persistent-client.ts` line 79), and `emit` runs handlers
    synchronously (`persistent-cli-transport.ts` lines 97-105), so every
    transport event is delivered to the client at the point of emission.
    `log` records every emitted event in order. -/
structure SysState where
  t : TransportState
  c : ClientState
  log : List TransportEvent
deriving DecidableEq

def initTransport : TransportState :=
  { state := ProcessState.not_started
    sessionId := none
    process := none
    stdinWrites := []
    stdinClosed := false }

def initClient : ClientState :=
  { started := false, messageCount := 0, pendingMessages := [],
    waitingForResult := 0 }

def initSys : SysState := { t := initTransport, c := initClient, log := [] }

/-- `PersistentClient.handleMessage` (`persistent-client.ts` lines
    195-208): push the record into the per-call buffer, then resolve the
    waiting query callbacks when the record is result-typed. -/
def handleMessage (c : ClientState) (m : CLIOutput) : ClientState :=
  let c1 := { c with pendingMessages := c.pendingMessages ++ [m] }
  if m.type = "result" then { c1 with waitingForResult := 0 } else c1

/-- `PersistentClient.handleTransportEvent` (lines 166-190): `message`
    events go to `handleMessage`; a `state_change` to `'paused'` resolves
    the waiting callbacks; `error` events are only logged
    (`console.error`, line 183) — they change nothing; the
    `session_initialized` case only logs. -/
def handleTransportEvent (c : ClientState) (e : TransportEvent) : ClientState :=
  match e with
  | TransportEvent.message m => handleMessage c m
  | TransportEvent.state_change st =>
      if st = ProcessState.paused then { c with waitingForResult := 0 } else c
  | TransportEvent.error _ => c
  | TransportEvent.session_initialized _ => c

/-- `PersistentCLITransport.emit` (lines 97-105): synchronously invoke
    each subscribed handler — here, the client's. -/
def emitEvent (s : SysState) (e : TransportEvent) : SysState :=
  { s with c := handleTransportEvent s.c e, log := s.log ++ [e] }

/-- `PersistentCLITransport.setState` (lines 110-116): only on an actual
    change, assign the new state and then emit a `state_change` event. -/
def setState (s : SysState) (ns : ProcessState) : SysState :=
  if s.t.state = ns then s
  else emitEvent { s with t := { s.t with state := ns } }
    (TransportEvent.state_change ns)

/-- `PersistentCLITransport.isAlive` (lines 73-79). -/
def TransportState.isAlive (t : TransportState) : Bool :=
  (t.state != ProcessState.not_started) &&
  (t.state != ProcessState.terminated) &&
  (t.state != ProcessState.error) &&
  (match t.process with
   | some p => !p.killed
   | none => false)

/-- `PersistentClient.isAlive` (lines 97-99):
    `this.transport?.isAlive() ?? false`. -/
def clientIsAlive (s : SysState) : Bool :=
  s.c.started && s.t.isAlive

/-- One line read by the reader loop, classified by the outcome of the
    external `line.trim()` / `JSON.parse` calls (`persistent-cli-transport.ts`
    lines 381-387): whitespace-only, unparseable, or parsed to a record. -/
inductive Line where
  | empty
  | malformed (raw : String)
  | record (parsed : CLIOutput)
deriving DecidableEq

/-- JavaScript truthiness of `parsed.session_id` (line 390): absent or
    empty-string ids are falsy. -/
def truthySessionId (m : CLIOutput) : Option String :=
  match m.session_id with
  | some sid => if sid = "" then none else some sid
  | none => none

/-- Lines 389-394 of the reader loop: on a system/init record with a
    truthy `session_id`, capture the id and emit `session_initialized`. -/
def initCapture (s : SysState) (m : CLIOutput) : SysState :=
  match truthySessionId m with
  | some sid =>
      if m.type = "system" ∧ m.subtype = some "init" then
        emitEvent { s with t := { s.t with sessionId := some sid } }
          (TransportEvent.session_initialized sid)
      else s
  | none => s

/-- Body of the reader loop for one line (`processOutput`, lines 376-407):
    skip blank lines; on parse failure `console.warn` and continue; on a
    parsed record: capture the session id (lines 389-394); on a result
    record transition to `'paused'` (lines 396-400); finally emit the
    record as a `message` event regardless of kind (lines 402-403). -/
def handleLine (s : SysState) (l : Line) : SysState :=
  match l with
  | Line.empty => s
  | Line.malformed _ => s
  | Line.record parsed =>
      emitEvent
        (if parsed.type = "result"
         then setState (initCapture s parsed) ProcessState.paused
         else initCapture s parsed)
        (TransportEvent.message parsed)

/-- The reader loop over a stretch of output lines.  When the stream ends
    (the subprocess exited and stdout closed), the `for await` loop at
    line 376 simply terminates: the code performs no action after it — no
    state change, no event — so stream end is the identity here. -/
def processOutput (s : SysState) (lines : List Line) : SysState :=
  lines.foldl handleLine s

/-- The subprocess exits.  The transport registers no `exit`/`close`
    listener anywhere (the only handlers installed by `start()` are the
    stderr `data` logger, lines 285-289, and the readline iterator), so
    the only effect is on the handle itself; `killed` stays `false` for a
    natural exit. -/
def subprocessExit (s : SysState) : SysState :=
  let p' : Option Subprocess :=
    match s.t.process with
    | some p => some { p with exited := true }
    | none => none
  { s with t := { s.t with process := p' } }

/-- `PersistentCLITransport.start` (lines 242-304) for a run in which the
    executable is found and the spawn succeeds (the scenarios of the
    claims; `findCLI`/`buildCommand` are out-of-scope collaborators):
    guard against double start (lines 243-245), enter `'initializing'`,
    spawn the process, start the writer and reader loops (their effects
    appear as later steps of the model), and set `'ready'` (line 297) —
    unconditionally, before any output line has been read. -/
def startTransport (s : SysState) : Except String SysState :=
  if s.t.state ≠ ProcessState.not_started then
    Except.error "Process already started"
  else
    let s1 := setState s ProcessState.initializing
    let spawned : Option Subprocess := some { exited := false, killed := false }
    let s2 := { s1 with t := { s1.t with process := spawned } }
    Except.ok (setState s2 ProcessState.ready)

/-- `PersistentClient.waitForSessionInit` (`persistent-client.ts` lines
    213-236) for a quiescent startup window — the scenario of the claims,
    in which no further output records arrive while it polls, so every
    poll observes the same state: resolve once a session id is captured;
    reject with `'Process failed to initialize'` on `error`/`terminated`;
    otherwise the 30-second timer fires and it rejects with
    `'Session initialization timeout'` (lines 215-217). -/
def waitForSessionInit (s : SysState) : Except String Unit :=
  if s.t.sessionId.isSome then Except.ok ()
  else if s.t.state = ProcessState.error ∨ s.t.state = ProcessState.terminated then
    Except.error "Process failed to initialize"
  else Except.error "Session initialization timeout"

/-- `PersistentClient.start` (lines 67-92), without an initial prompt:
    guard against double start, create the generator and transport (so
    `this.transport` is set — `started := true`), subscribe, start the
    transport, let the reader consume whatever the subprocess emits
    during the startup window (`startupLines`), then wait for session
    initialization. -/
def clientStart (s : SysState) (startupLines : List Line) :
    Except String SysState :=
  if s.c.started then Except.error "Client already started"
  else
    match startTransport { s with c := { s.c with started := true } } with
    | Except.error e => Except.error e
    | Except.ok s1 =>
        let s2 := processOutput s1 startupLines
        match waitForSessionInit s2 with
        | Except.ok _ => Except.ok s2
        | Except.error e => Except.error e

/-- The body of the writer loop for one received turn, up to and
    including the stdin write (`processMessageGenerator`, lines 313-329):
    if the transport is no longer alive the loop breaks without writing
    (lines 314-317); otherwise `setState('processing')` (line 319), then
    write the prompt followed by `'\n'` (line 329). -/
def writerWrite (s : SysState) (prompt : String) : SysState :=
  if s.t.isAlive then
    let s1 := setState s ProcessState.processing
    let w : StdinWrite :=
      { data := prompt ++ "\n", stateAtWrite := s1.t.state,
        stateOnEntry := s.t.state }
    { s1 with t := { s1.t with stdinWrites := s1.t.stdinWrites ++ [w] } }
  else s

/-- The predicate `waitForPause` polls (lines 349-360): it returns only
    once the state is `'paused'` or `'ready'`. -/
def pauseReached (s : SysState) : Bool :=
  s.t.state = ProcessState.paused || s.t.state = ProcessState.ready

/-- One full writer-loop iteration (`processMessageGenerator`, lines
    313-333): receive a turn, write it, let the reader classify the
    subprocess output produced for this turn (`turnLines`), and block in
    `waitForPause` — which returns only if the state has come back to
    `'paused'`/`'ready'`; if it never does (or the transport was not
    alive), the loop never requests another turn (`none`). -/
def writerStep (s : SysState) (prompt : String) (turnLines : List Line) :
    Option SysState :=
  if s.t.isAlive then
    let s2 := processOutput (writerWrite s prompt) turnLines
    if pauseReached s2 then some s2 else none
  else none

/-- The writer loop over a sequence of turns, each paired with the output
    lines the subprocess produces in response. -/
def runWriter : SysState → List (String × List Line) → Option SysState
  | s, [] => some s
  | s, (p, ls) :: rest =>
      match writerStep s p ls with
      | some s' => runWriter s' rest
      | none => none

/-- `PersistentClient.query` (lines 116-143) up to its suspension point:
    the not-started and not-alive guards (lines 117-123), the per-call
    buffer reset (line 128), `setNextMessage` (line 131, which — the
    feeder model above — hands the prompt to the writer loop),
    `messageCount++` (line 132), and the `waitForResult()` resolver push
    (lines 135, 241-245).  The query body is synchronous up to the
    `await`, so the resolver is pushed before the writer's continuation
    (a microtask) runs `setState('processing')` and the write. -/
def submitQuery (s : SysState) (prompt : String) : Except String SysState :=
  if s.c.started = false then
    Except.error "Client not started. Call start() first."
  else if clientIsAlive s = false then
    Except.error "Process is not alive"
  else
    let c1 : ClientState :=
      { s.c with pendingMessages := [], messageCount := s.c.messageCount + 1,
                 waitingForResult := s.c.waitingForResult + 1 }
    Except.ok (writerWrite { s with c := c1 } prompt)

/-- Completion of the suspended `query()`: the caller's continuation runs
    once `resolveWaitingForResult` (lines 250-257) has emptied the
    resolver array during the processing of an output line; being a
    microtask, it observes the buffer only after that line's events have
    all been delivered, and then snapshots `pendingMessages` (line 140).
    Returns `none` when no line ever resolves the query (it stays
    suspended forever: `waitForResult`'s promise has no reject path). -/
def runTurn : SysState → List Line → Option (List CLIOutput × SysState)
  | _, [] => none
  | s, l :: ls =>
      let s' := handleLine s l
      if s.c.waitingForResult ≠ 0 ∧ s'.c.waitingForResult = 0 then
        some (s'.c.pendingMessages, s')
      else runTurn s' ls

/-- `PersistentCLITransport.terminate` (lines 422-455): a no-op from
    `'terminated'`/`'not_started'` (lines 423-425); otherwise
    `'terminating'`, close stdin if the process handle is present, `kill()`
    it if not already killed, await its exit (errors swallowed), set
    `'terminated'`, and in the `finally` clear the handle. -/
def terminateTransport (s : SysState) : SysState :=
  if s.t.state = ProcessState.terminated ∨ s.t.state = ProcessState.not_started
  then s
  else
    let s1 := setState s ProcessState.terminating
    let s2 :=
      match s1.t.process with
      | some _ => { s1 with t := { s1.t with stdinClosed := true } }
      | none => s1
    let s3 :=
      match s2.t.process with
      | some p =>
          if p.killed = false then
            let p' : Option Subprocess := some { p with killed := true }
            { s2 with t := { s2.t with process := p' } }
          else s2
      | none => s2
    let s4 := setState s3 ProcessState.terminated
    { s4 with t := { s4.t with process := none } }

/-- `PersistentClient.stop` (lines 148-161): terminate the generator (the
    feeder model above) and the transport, clear both references, and
    reset `messageCount` and `pendingMessages`.  (`waitingForResult` is
    not reset by the source.) -/
def clientStop (s : SysState) : SysState :=
  let s1 := if s.c.started then terminateTransport s else s
  let c1 : ClientState :=
    { s1.c with started := false, messageCount := 0, pendingMessages := [] }
  { s1 with c := c1 }

/-- The `{"type":"init","sessionId":...}` record of the spec's fake
    subprocess, in the shape the transport actually recognizes. -/
def initRecord : CLIOutput :=
  { type := "system", subtype := some "init", session_id := some "S1" }

def contentRecord : CLIOutput := { type := "assistant" }

def resultRecord : CLIOutput := { type := "result" }

def errorRecord : CLIOutput := { type := "error", errorMessage := some "boom" }

/-- The state at the moment `transport.start()` resolves — the state
    `waitForSessionInit` then polls via `getState()`. -/
def startObserved : SysState :=
  (startTransport
    { initSys with c := { initSys.c with started := true } }).toOption.getD
    initSys

/-- A started client: the fake subprocess emitted one init record during
    the startup window. -/
def sStarted : SysState :=
  (clientStart initSys [Line.record initRecord]).toOption.getD initSys

/-- A started client with one query in flight: the prompt has been
    written, no result record observed yet. -/
def sPending : SysState :=
  (submitQuery sStarted "ping").toOption.getD initSys

/-- A line whose record would fire the session-init capture of the reader
    loop (lines 390-394). -/
def isInitTrigger : Line → Prop
  | Line.record m =>
      m.type = "system" ∧ m.subtype = some "init" ∧ (truthySessionId m).isSome = true
  | _ => False

instance (l : Line) : Decidable (isInitTrigger l) :=
  match l with
  | Line.empty => isFalse (fun h => h)
  | Line.malformed _ => isFalse (fun h => h)
  | Line.record _ => inferInstanceAs (Decidable (_ ∧ _ ∧ _))

/-- `true` exactly on `error`-typed transport events. -/
def isErrorEvent : TransportEvent → Bool
  | TransportEvent.error _ => true
  | _ => false

/-- The write the writer loop performs for `prompt` when entered in
    transport state `entry`: one newline-terminated line, written after
    the transition to `processing`. -/
def expectedWrite (prompt : String) (entry : ProcessState) : StdinWrite :=
  { data := prompt ++ "\n"
    stateAtWrite := ProcessState.processing
    stateOnEntry := entry }

/-- A completed turn against the fake subprocess: one content record then
    one result record. -/
def sAfterTurn : SysState :=
  (writerStep sStarted "ping"
    [Line.record contentRecord, Line.record resultRecord]).getD initSys

/-- Lines whose processing cannot complete a turn: anything but a
    result-typed record. -/
def resultFree (l : Line) : Prop :=
  match l with
  | Line.record m => ¬ m.type = "result"
  | _ => True

instance (l : Line) : Decidable (resultFree l) :=
  match l with
  | Line.empty => isTrue trivial
  | Line.malformed _ => isTrue trivial
  | Line.record _ => inferInstanceAs (Decidable (¬ _ = _))

/-- The parsed records among a list of lines, in order. -/
def recordsOf : List Line → List CLIOutput
  | [] => []
  | Line.record m :: ls => m :: recordsOf ls
  | Line.empty :: ls => recordsOf ls
  | Line.malformed _ :: ls => recordsOf ls

theorem setNextMessage_isTerminated (fs : FeederState) (m : String) :
    (setNextMessage fs m).isTerminated = fs.isTerminated := by
  unfold setNextMessage
  split
  · rfl
  · split <;> rfl

theorem setNextMessage_pending (fs : FeederState) (m : String)
    (hT : fs.isTerminated = false)
    (hp : fs.sendMessagePromise.status = Status.pending) :
    setNextMessage fs m =
      { fs with sendMessagePromise := fs.sendMessagePromise.resolve m } := by
  unfold setNextMessage
  simp [hT, hp]

theorem genStart_inv (fs : FeederState) : GenInv (genStart fs) := by
  refine ⟨rfl, List.nodup_nil, ?_, ?_⟩
  · intro i hi
    exact absurd hi (List.not_mem_nil i)
  · exact Nat.lt_succ_self _

theorem genIteration_eq (g : GenState) (m : String)
    (hT : g.feeder.isTerminated = false) (h : GenInv g) :
    genIteration g m =
      ({ feeder := installFreshSlot
            { g.feeder with
              sendMessagePromise := g.feeder.sendMessagePromise.resolve m }
         consumedSlots := g.consumedSlots ++ [g.feeder.slotId] },
       some { type := "user", content := m }) := by
  obtain ⟨hfresh, _, _, _⟩ := h
  unfold genIteration
  rw [setNextMessage_pending g.feeder m hT (by rw [hfresh]; rfl)]
  simp [hT]

theorem genIteration_inv (g : GenState) (m : String)
    (hT : g.feeder.isTerminated = false) (h : GenInv g) :
    GenInv (genIteration g m).1 ∧
    (genIteration g m).1.feeder.isTerminated = false ∧
    (genIteration g m).1.consumedSlots = g.consumedSlots ++ [g.feeder.slotId] := by
  obtain ⟨hfresh, hnd, hlt, hbound⟩ := h
  rw [genIteration_eq g m hT ⟨hfresh, hnd, hlt, hbound⟩]
  refine ⟨⟨rfl, ?_, ?_, ?_⟩, hT, rfl⟩
  · rw [List.nodup_append]
    refine ⟨hnd, List.nodup_singleton _, ?_⟩
    intro a ha hb
    rw [List.mem_singleton.mp hb] at ha
    exact absurd (hlt _ ha) (lt_irrefl _)
  · intro i hi
    show i < g.feeder.nextSlotId
    rcases List.mem_append.mp hi with hi | hi
    · exact lt_trans (hlt i hi) hbound
    · rw [List.mem_singleton.mp hi]; exact hbound
  · exact Nat.lt_succ_self _

theorem genRun_inv (ms : List String) (g : GenState)
    (hT : g.feeder.isTerminated = false) (h : GenInv g) :
    GenInv (genRun g ms).1 ∧ (genRun g ms).1.feeder.isTerminated = false := by
  induction ms generalizing g with
  | nil => exact ⟨h, hT⟩
  | cons m ms ih =>
    obtain ⟨h1, h2, _⟩ := genIteration_inv g m hT h
    rw [genRun, genIteration_eq g m hT h]
    rw [genIteration_eq g m hT h] at h1 h2
    simpa [genRun] using ih _ h2 h1

/-- **C6.** In the `generateMessages()` loop, after the awaited slot's value
is consumed, a fresh pending `controllablePromise()` is installed (line 99)
before the generator next suspends (the `yield` at line 102), so each
emitted turn consumes a distinct slot (the consumed-identity list stays
duplicate-free) and the installed slot is unsettled, so a further
consumption attempt can never observe a stale value. -/
theorem C6_fresh_slot_before_suspension :
    (∀ (g : GenState) (m : String), g.feeder.isTerminated = false → GenInv g →
        (genIteration g m).1.feeder.sendMessagePromise = controllablePromise String ∧
        (genIteration g m).1.feeder.sendMessagePromise.settled = none ∧
        (genIteration g m).1.consumedSlots = g.consumedSlots ++ [g.feeder.slotId] ∧
        (genIteration g m).1.feeder.slotId ∉ (genIteration g m).1.consumedSlots) ∧
    (∀ (ms : List String) (fs : FeederState), fs.isTerminated = false →
        (genRun (genStart fs) ms).1.consumedSlots.Nodup ∧
        (genRun (genStart fs) ms).1.feeder.sendMessagePromise =
          controllablePromise String) := by
  constructor
  · intro g m hT h
    obtain ⟨⟨hfresh, hnd, hlt, hbound⟩, _, hcons⟩ := genIteration_inv g m hT h
    refine ⟨hfresh, by rw [hfresh]; rfl, hcons, ?_⟩
    intro hmem
    exact absurd (hlt _ hmem) (lt_irrefl _)
  · intro ms fs hT
    have h0 : GenInv (genStart fs) := genStart_inv fs
    have hT0 : (genStart fs).feeder.isTerminated = fs.isTerminated := rfl
    obtain ⟨⟨hfresh, hnd, _, _⟩, _⟩ :=
      genRun_inv ms (genStart fs) (by rw [hT0, hT]) h0
    exact ⟨hnd, hfresh⟩

/-- Closed instance of C6 at a concrete run. -/
theorem C6_witness :
    (genIteration (genStart createMessageGenerator) "hi").1.consumedSlots =
      [] ++ [(genStart createMessageGenerator).feeder.slotId] ∧
    (genRun (genStart createMessageGenerator) ["a", "b"]).1.consumedSlots.Nodup :=
  ⟨(C6_fresh_slot_before_suspension.1 (genStart createMessageGenerator) "hi"
      rfl (genStart_inv _)).2.2.1,
   (C6_fresh_slot_before_suspension.2 ["a", "b"] createMessageGenerator rfl).1⟩

/-- **C4.** Evaluation of `controllablePromise()` at the failing input of
the claim: the returned object's `status` property is a creation-time
snapshot of the local variable, so it still reads `'pending'` after
`resolve`/`reject` (only the closure-internal variable changes). -/
theorem C4_status_property_frozen :
    (controllablePromise String).status = Status.pending ∧
    ((controllablePromise String).resolve "x").status = Status.pending ∧
    ((controllablePromise String).reject "e").status = Status.pending ∧
    ((controllablePromise String).resolve "x").statusVar = Status.resolved ∧
    ((controllablePromise String).reject "e").statusVar = Status.rejected := by
  decide

/-- **C5.** Evaluation of `setNextMessage` at the failing input: after
`setNextMessage "a"` the slot is consumed (`statusVar = resolved`), yet a
second `setNextMessage "b"` does not fabricate a replacement slot — the
guard reads the frozen `status` property, so the slot identity is
unchanged, no warning is logged, and the already-settled original keeps
the value `"a"`: the value `"b"` is silently dropped. -/
theorem C5_replacement_branch_dead :
    fsA.sendMessagePromise.statusVar = Status.resolved ∧
    fsB.slotId = fsA.slotId ∧
    fsB.nextSlotId = fsA.nextSlotId ∧
    fsB.warnings = [] ∧
    fsB.sendMessagePromise.settled = some (Settled.ok "a") := by
  decide

theorem emitEvent_t (s : SysState) (e : TransportEvent) :
    (emitEvent s e).t = s.t := rfl

theorem setState_state (s : SysState) (ns : ProcessState) :
    (setState s ns).t.state = ns := by
  unfold setState
  split
  · assumption
  · rfl

theorem setState_sessionId (s : SysState) (ns : ProcessState) :
    (setState s ns).t.sessionId = s.t.sessionId := by
  unfold setState
  split <;> rfl

theorem setState_process (s : SysState) (ns : ProcessState) :
    (setState s ns).t.process = s.t.process := by
  unfold setState
  split <;> rfl

theorem setState_stdinWrites (s : SysState) (ns : ProcessState) :
    (setState s ns).t.stdinWrites = s.t.stdinWrites := by
  unfold setState
  split <;> rfl

theorem initCapture_state (s : SysState) (m : CLIOutput) :
    (initCapture s m).t.state = s.t.state := by
  unfold initCapture
  split
  · split <;> rfl
  · rfl

theorem initCapture_c (s : SysState) (m : CLIOutput) :
    (initCapture s m).c = s.c := by
  unfold initCapture
  split
  · split <;> rfl
  · rfl

theorem initCapture_process (s : SysState) (m : CLIOutput) :
    (initCapture s m).t.process = s.t.process := by
  unfold initCapture
  split
  · split <;> rfl
  · rfl

theorem initCapture_stdinWrites (s : SysState) (m : CLIOutput) :
    (initCapture s m).t.stdinWrites = s.t.stdinWrites := by
  unfold initCapture
  split
  · split <;> rfl
  · rfl

theorem handleLine_record_state (s : SysState) (m : CLIOutput) :
    (handleLine s (Line.record m)).t.state = s.t.state ∨
    (handleLine s (Line.record m)).t.state = ProcessState.paused := by
  show (if m.type = "result"
        then setState (initCapture s m) ProcessState.paused
        else initCapture s m).t.state = s.t.state ∨
       (if m.type = "result"
        then setState (initCapture s m) ProcessState.paused
        else initCapture s m).t.state = ProcessState.paused
  by_cases hr : m.type = "result"
  · rw [if_pos hr]
    exact Or.inr (setState_state _ _)
  · rw [if_neg hr]
    exact Or.inl (initCapture_state s m)

theorem handleLine_state (s : SysState) (l : Line) :
    (handleLine s l).t.state = s.t.state ∨
    (handleLine s l).t.state = ProcessState.paused := by
  cases l with
  | empty => exact Or.inl rfl
  | malformed raw => exact Or.inl rfl
  | record m => exact handleLine_record_state s m

theorem processOutput_state (s : SysState) (lines : List Line) :
    (processOutput s lines).t.state = s.t.state ∨
    (processOutput s lines).t.state = ProcessState.paused := by
  induction lines generalizing s with
  | nil => exact Or.inl rfl
  | cons l ls ih =>
      show (processOutput (handleLine s l) ls).t.state = s.t.state ∨
           (processOutput (handleLine s l) ls).t.state = ProcessState.paused
      rcases ih (handleLine s l) with h | h
      · rw [h]
        exact handleLine_state s l
      · exact Or.inr h

theorem initCapture_sessionId (s : SysState) (m : CLIOutput)
    (h : ¬ isInitTrigger (Line.record m)) :
    (initCapture s m).t.sessionId = s.t.sessionId := by
  unfold initCapture
  rcases htr : truthySessionId m with _ | sid
  · simp only [htr]
  · simp only [htr]
    rw [if_neg]
    intro hc
    exact h ⟨hc.1, hc.2, by rw [htr]; rfl⟩

theorem handleLine_sessionId (s : SysState) (l : Line)
    (h : ¬ isInitTrigger l) :
    (handleLine s l).t.sessionId = s.t.sessionId := by
  cases l with
  | empty => rfl
  | malformed raw => rfl
  | record m =>
      show (if m.type = "result"
            then setState (initCapture s m) ProcessState.paused
            else initCapture s m).t.sessionId = s.t.sessionId
      by_cases hr : m.type = "result"
      · rw [if_pos hr, setState_sessionId]
        exact initCapture_sessionId s m h
      · rw [if_neg hr]
        exact initCapture_sessionId s m h

theorem processOutput_sessionId (s : SysState) (lines : List Line)
    (h : ∀ l ∈ lines, ¬ isInitTrigger l) :
    (processOutput s lines).t.sessionId = s.t.sessionId := by
  induction lines generalizing s with
  | nil => rfl
  | cons l ls ih =>
      show (processOutput (handleLine s l) ls).t.sessionId = s.t.sessionId
      rw [ih (handleLine s l) (fun x hx => h x (List.mem_cons_of_mem l hx))]
      exact handleLine_sessionId s l (h l (List.mem_cons_self l ls))

/-- **C2 (amended).** When the subprocess emits no session-init record
during the startup window, `start()` rejects with the
initialization-timeout error — but the transport state is set to `ready`
unconditionally right after the spawn (line 297), before any output is
read, so the state *is* observed as `ready` during that run. -/
theorem C2_ready_observed_and_timeout :
    startObserved.t.state = ProcessState.ready ∧
    ∀ lines : List Line, (∀ l ∈ lines, ¬ isInitTrigger l) →
      clientStart initSys lines = Except.error "Session initialization timeout" := by
  constructor
  · decide
  · intro lines h
    have hsid : (processOutput startObserved lines).t.sessionId = none := by
      rw [processOutput_sessionId startObserved lines h]
      decide
    have hready : startObserved.t.state = ProcessState.ready := by decide
    have hne : ¬((processOutput startObserved lines).t.state = ProcessState.error ∨
        (processOutput startObserved lines).t.state = ProcessState.terminated) := by
      rcases processOutput_state startObserved lines with hh | hh <;> rw [hh]
      · rw [hready]; decide
      · decide
    have hred : clientStart initSys lines =
        (match waitForSessionInit (processOutput startObserved lines) with
         | Except.ok _ => Except.ok (processOutput startObserved lines)
         | Except.error e => Except.error e) := rfl
    have hw : waitForSessionInit (processOutput startObserved lines) =
        Except.error "Session initialization timeout" := by
      unfold waitForSessionInit
      rw [hsid]
      rw [if_neg (by decide), if_neg hne]
    rw [hred, hw]

/-- Closed instance of C2's amended statement. -/
theorem C2_witness :
    startObserved.t.state = ProcessState.ready ∧
    clientStart initSys [Line.record resultRecord] =
      Except.error "Session initialization timeout" :=
  ⟨C2_ready_observed_and_timeout.1,
   C2_ready_observed_and_timeout.2 [Line.record resultRecord] (by decide)⟩

/-- **C2 (counterexample).** The run in which the fake subprocess emits
nothing: `start()` does reject with the timeout error, but the state the
initialization poll observes is `ready` — refuting "the process state is
never observed as Ready". -/
theorem C2_counterexample :
    clientStart initSys [] = Except.error "Session initialization timeout" ∧
    startObserved.t.state = ProcessState.ready := by
  decide

/-- **C1 (amended).** When the subprocess exits while a turn is pending
(state `processing`, transport alive), nothing observes the exit: no exit
listener is registered, the reader loop ends with no action once the
closed stdout yields no further lines, so the state remains `processing`
(never `error`), no event is emitted, the client state — including the
pending `query()` resolver — is untouched (the query neither resolves nor
rejects: `waitForResult`'s promise has no reject path at all), and
`isAlive()` continues to return `true` (`ChildProcess.killed` stays
`false` on a natural exit). -/
theorem C1_exit_unobserved (s : SysState)
    (hstate : s.t.state = ProcessState.processing)
    (halive : clientIsAlive s = true) :
    (processOutput (subprocessExit s) []).t.state = ProcessState.processing ∧
    (processOutput (subprocessExit s) []).t.state ≠ ProcessState.error ∧
    clientIsAlive (processOutput (subprocessExit s) []) = true ∧
    (processOutput (subprocessExit s) []).c = s.c ∧
    (processOutput (subprocessExit s) []).log = s.log := by
  refine ⟨hstate, ?_, ?_, rfl, rfl⟩
  · show s.t.state ≠ ProcessState.error
    rw [hstate]
    decide
  · show clientIsAlive (subprocessExit s) = true
    have hs1 : (subprocessExit s).t.state = s.t.state := rfl
    have hs2 : (subprocessExit s).c.started = s.c.started := rfl
    rcases hp : s.t.process with _ | p
    · rw [clientIsAlive, TransportState.isAlive, hp] at halive
      simp at halive
    · have hp' : (subprocessExit s).t.process = some { p with exited := true } := by
        show (match s.t.process with
              | some q => some ({ q with exited := true } : Subprocess)
              | none => none) = _
        rw [hp]
      rw [clientIsAlive, TransportState.isAlive] at halive ⊢
      simp only [hp] at halive
      simp only [hp', hs1, hs2]
      exact halive

/-- **C1 (counterexample).** The claim at the concrete run: client started
with one init record, one query in flight (`"ping"` written, state
`processing`), then the subprocess exits and its output stream ends with
no further lines.  The state stays `processing` — not `error` —
`isAlive()` still returns `true`, and the single pending `query()`
resolver is still pending (never rejected). -/
theorem C1_counterexample :
    (processOutput (subprocessExit sPending) []).t.state =
      ProcessState.processing ∧
    clientIsAlive (processOutput (subprocessExit sPending) []) = true ∧
    (processOutput (subprocessExit sPending) []).c.waitingForResult = 1 := by
  decide

/-- Closed instance of C1's amended statement. -/
theorem C1_witness :
    (processOutput (subprocessExit sPending) []).t.state ≠
      ProcessState.error ∧
    (processOutput (subprocessExit sPending) []).c = sPending.c :=
  ⟨(C1_exit_unobserved sPending (by decide) (by decide)).2.1,
   (C1_exit_unobserved sPending (by decide) (by decide)).2.2.2.1⟩

/-- **C3 (amended).** An error-typed output record is forwarded exactly
like any other record: one `message` event, appended to the per-call
buffer; it is not converted into a transport `error` event, the in-flight
query's resolver count is untouched (the call is not rejected), and the
client's handler for transport `error` events is itself a no-op on the
client state (it only logs). -/
theorem C3_error_record_is_plain_message (s : SysState) (m : CLIOutput)
    (h : m.type = "error") :
    (handleLine s (Line.record m)).log = s.log ++ [TransportEvent.message m] ∧
    (handleLine s (Line.record m)).c.pendingMessages =
      s.c.pendingMessages ++ [m] ∧
    (handleLine s (Line.record m)).c.waitingForResult =
      s.c.waitingForResult ∧
    (handleLine s (Line.record m)).t.state = s.t.state ∧
    (∀ emsg : String,
      handleTransportEvent s.c (TransportEvent.error emsg) = s.c) := by
  have h1 : initCapture s m = s := by
    unfold initCapture
    rcases htr : truthySessionId m with _ | sid
    · simp only [htr]
    · simp only [htr]
      rw [if_neg]
      intro hc
      have h2 := hc.1
      rw [h] at h2
      exact absurd h2 (by decide)
  have hr : ¬ m.type = "result" := by
    rw [h]
    decide
  have h3 : handleLine s (Line.record m) =
      emitEvent s (TransportEvent.message m) := by
    show emitEvent (if m.type = "result"
          then setState (initCapture s m) ProcessState.paused
          else initCapture s m) (TransportEvent.message m) = _
    rw [if_neg hr, h1]
  rw [h3]
  refine ⟨rfl, ?_, ?_, rfl, fun _ => rfl⟩
  · show (handleMessage s.c m).pendingMessages = _
    unfold handleMessage
    rw [if_neg hr]
  · show (handleMessage s.c m).waitingForResult = _
    unfold handleMessage
    rw [if_neg hr]

/-- **C3 (counterexample).** Delivering an error-typed record while a
query is in flight: the record arrives as a `message` event (and lands in
the buffer), no `error` event is emitted anywhere in the run's log, and
the pending query still has its resolver — it was not rejected. -/
theorem C3_counterexample :
    (handleLine sPending (Line.record errorRecord)).c.waitingForResult = 1 ∧
    (handleLine sPending (Line.record errorRecord)).log.filter isErrorEvent
      = [] ∧
    (handleLine sPending (Line.record errorRecord)).log.getLast? =
      some (TransportEvent.message errorRecord) ∧
    (handleLine sPending (Line.record errorRecord)).c.pendingMessages =
      [errorRecord] := by
  decide

/-- Closed instance of C3's amended statement. -/
theorem C3_witness :
    (handleLine sPending (Line.record errorRecord)).log =
      sPending.log ++ [TransportEvent.message errorRecord] ∧
    (handleLine sPending (Line.record errorRecord)).c.waitingForResult =
      sPending.c.waitingForResult :=
  ⟨(C3_error_record_is_plain_message sPending errorRecord (by decide)).1,
   (C3_error_record_is_plain_message sPending errorRecord (by decide)).2.2.1⟩

theorem getLast?_append_singleton (l : List α) (a : α) :
    (l ++ [a]).getLast? = some a := by
  simp

/-- **C9.** Reader-loop line handling: every parsed record is forwarded
as a `message` event regardless of its kind (the event log gains it as
its last entry); an unparseable line leaves the whole system state
untouched; skipping it does not terminate the loop (the fold over the
remaining lines is exactly the fold without the malformed line); and no
line — parsed or not — can move the transport into the `error` state. -/
theorem C9_reader_line_handling :
    (∀ (s : SysState) (m : CLIOutput),
        (handleLine s (Line.record m)).log.getLast? =
          some (TransportEvent.message m)) ∧
    (∀ (s : SysState) (raw : String), handleLine s (Line.malformed raw) = s) ∧
    (∀ (s : SysState) (pre post : List Line) (raw : String),
        processOutput s (pre ++ Line.malformed raw :: post) =
          processOutput s (pre ++ post)) ∧
    (∀ (s : SysState) (lines : List Line),
        s.t.state ≠ ProcessState.error →
        (processOutput s lines).t.state ≠ ProcessState.error) := by
  refine ⟨?_, fun s raw => rfl, ?_, ?_⟩
  · intro s m
    show ((if m.type = "result"
           then setState (initCapture s m) ProcessState.paused
           else initCapture s m).log ++ [TransportEvent.message m]).getLast? = _
    exact getLast?_append_singleton _ _
  · intro s pre post raw
    induction pre generalizing s with
    | nil => rfl
    | cons l pre ih =>
        show processOutput (handleLine s l) (pre ++ Line.malformed raw :: post) =
             processOutput (handleLine s l) (pre ++ post)
        exact ih (handleLine s l)
  · intro s lines h
    rcases processOutput_state s lines with hh | hh <;> rw [hh]
    · exact h
    · decide

/-- Closed instance of C9. -/
theorem C9_witness :
    (handleLine initSys (Line.record contentRecord)).log.getLast? =
      some (TransportEvent.message contentRecord) ∧
    handleLine initSys (Line.malformed "oops") = initSys ∧
    (processOutput sStarted [Line.malformed "x", Line.record resultRecord]).t.state ≠
      ProcessState.error :=
  ⟨C9_reader_line_handling.1 initSys contentRecord,
   C9_reader_line_handling.2.1 initSys "oops",
   C9_reader_line_handling.2.2.2 sStarted
     [Line.malformed "x", Line.record resultRecord] (by decide)⟩

theorem terminateTransport_noop (s : SysState)
    (h : s.t.state = ProcessState.terminated ∨
         s.t.state = ProcessState.not_started) :
    terminateTransport s = s := by
  unfold terminateTransport
  rw [if_pos h]

theorem terminateTransport_state (s : SysState)
    (h : s.t.state ≠ ProcessState.not_started) :
    (terminateTransport s).t.state = ProcessState.terminated := by
  by_cases h2 : s.t.state = ProcessState.terminated ∨
      s.t.state = ProcessState.not_started
  · rw [terminateTransport_noop s h2]
    rcases h2 with h2 | h2
    · exact h2
    · exact absurd h2 h
  · unfold terminateTransport
    rw [if_neg h2]
    exact setState_state _ _

/-- **C7.** `terminate()`/`stop()` are idempotent total operations: a
second `terminate()` returns with no further effect; from any state
other than `not_started` a completed `terminate()` leaves the state at
`terminated`; calling it from `not_started`/`terminated` is a no-op; and
a second `stop()` on the client is also a no-op. -/
theorem C7_stop_idempotent :
    (∀ s : SysState, terminateTransport (terminateTransport s) =
        terminateTransport s) ∧
    (∀ s : SysState, s.t.state ≠ ProcessState.not_started →
        (terminateTransport s).t.state = ProcessState.terminated) ∧
    (∀ s : SysState,
        s.t.state = ProcessState.terminated ∨
        s.t.state = ProcessState.not_started →
        terminateTransport s = s) ∧
    (∀ s : SysState, clientStop (clientStop s) = clientStop s) := by
  refine ⟨?_, terminateTransport_state, terminateTransport_noop, ?_⟩
  · intro s
    by_cases h2 : s.t.state = ProcessState.terminated ∨
        s.t.state = ProcessState.not_started
    · rw [terminateTransport_noop s h2]
      exact terminateTransport_noop s h2
    · refine terminateTransport_noop _ (Or.inl ?_)
      exact terminateTransport_state s (fun hh => h2 (Or.inr hh))
  · intro s
    rfl

/-- Closed instance of C7. -/
theorem C7_witness :
    terminateTransport (terminateTransport sPending) =
      terminateTransport sPending ∧
    (terminateTransport sPending).t.state = ProcessState.terminated ∧
    terminateTransport initSys = initSys ∧
    clientStop (clientStop sStarted) = clientStop sStarted :=
  ⟨C7_stop_idempotent.1 sPending,
   C7_stop_idempotent.2.1 sPending (by decide),
   C7_stop_idempotent.2.2.1 initSys (by decide),
   C7_stop_idempotent.2.2.2 sStarted⟩

theorem handleLine_stdinWrites (s : SysState) (l : Line) :
    (handleLine s l).t.stdinWrites = s.t.stdinWrites := by
  cases l with
  | empty => rfl
  | malformed raw => rfl
  | record m =>
      show (if m.type = "result"
            then setState (initCapture s m) ProcessState.paused
            else initCapture s m).t.stdinWrites = s.t.stdinWrites
      by_cases hr : m.type = "result"
      · rw [if_pos hr, setState_stdinWrites]
        exact initCapture_stdinWrites s m
      · rw [if_neg hr]
        exact initCapture_stdinWrites s m

theorem processOutput_stdinWrites (s : SysState) (lines : List Line) :
    (processOutput s lines).t.stdinWrites = s.t.stdinWrites := by
  induction lines generalizing s with
  | nil => rfl
  | cons l ls ih =>
      show (processOutput (handleLine s l) ls).t.stdinWrites = s.t.stdinWrites
      rw [ih (handleLine s l), handleLine_stdinWrites]

theorem writerWrite_eq (s : SysState) (prompt : String)
    (h : s.t.isAlive = true) :
    (writerWrite s prompt).t.stdinWrites =
      s.t.stdinWrites ++ [expectedWrite prompt s.t.state] := by
  unfold writerWrite
  rw [if_pos h]
  show (setState s ProcessState.processing).t.stdinWrites ++
      [{ data := prompt ++ "\n"
         stateAtWrite := (setState s ProcessState.processing).t.state
         stateOnEntry := s.t.state }] = _
  rw [setState_stdinWrites, setState_state]
  rfl

theorem writerStep_some (s : SysState) (p : String) (lines : List Line)
    (s' : SysState) (h : writerStep s p lines = some s') :
    s'.t.stdinWrites = s.t.stdinWrites ++ [expectedWrite p s.t.state] ∧
    (s'.t.state = ProcessState.paused ∨ s'.t.state = ProcessState.ready) := by
  unfold writerStep at h
  by_cases ha : s.t.isAlive = true
  · rw [if_pos ha] at h
    by_cases hp : pauseReached (processOutput (writerWrite s p) lines) = true
    · rw [if_pos hp] at h
      cases h
      constructor
      · rw [processOutput_stdinWrites]
        exact writerWrite_eq s p ha
      · unfold pauseReached at hp
        simpa using hp
    · rw [if_neg hp] at h
      cases h
  · rw [if_neg ha] at h
    cases h

theorem runWriter_writes (turns : List (String × List Line)) (s s' : SysState)
    (hs : s.t.state = ProcessState.ready ∨ s.t.state = ProcessState.paused)
    (h : runWriter s turns = some s') :
    (s'.t.state = ProcessState.paused ∨ s'.t.state = ProcessState.ready) ∧
    ∃ ws : List StdinWrite,
      s'.t.stdinWrites = s.t.stdinWrites ++ ws ∧
      ws.map StdinWrite.data = turns.map (fun t => t.1 ++ "\n") ∧
      ∀ w ∈ ws, w.stateAtWrite = ProcessState.processing ∧
        (w.stateOnEntry = ProcessState.ready ∨
         w.stateOnEntry = ProcessState.paused) := by
  induction turns generalizing s with
  | nil =>
      cases h
      refine ⟨hs.symm, [], by simp, rfl, ?_⟩
      intro w hw
      exact absurd hw (List.not_mem_nil w)
  | cons t turns ih =>
      obtain ⟨p, ls⟩ := t
      rcases hw : writerStep s p ls with _ | s1
      · rw [runWriter, hw] at h
        cases h
      · rw [runWriter, hw] at h
        obtain ⟨hstd, hst⟩ := writerStep_some s p ls s1 hw
        obtain ⟨hfin, ws, hws, hmap, hall⟩ := ih s1 hst.symm h
        refine ⟨hfin, expectedWrite p s.t.state :: ws, ?_, ?_, ?_⟩
        · rw [hws, hstd, List.append_assoc]
          rfl
        · show _ :: ws.map StdinWrite.data = _ :: turns.map _
          rw [hmap]
          rfl
        · intro w hwmem
          rcases List.mem_cons.mp hwmem with hwmem | hwmem
          · rw [hwmem]
            exact ⟨rfl, hs⟩
          · exact hall w hwmem

/-- **C8.** Writer-loop discipline: for every turn the loop consumes, it
sets the state to `processing` (the instrumented write records both the
state on entry and the state at the moment of the write), writes exactly
one newline-terminated line `prompt ++ "\n"` to stdin, and only proceeds
to request the next turn once `waitForPause` has seen the state back at
`paused`/`ready`; over a whole run starting from `ready`/`paused`, every
write happens in state `processing` from an entry state that was
`ready`/`paused`, and the data written is exactly the turn prompts, in
order, each newline-terminated. -/
theorem C8_writer_discipline :
    (∀ (s : SysState) (p : String) (lines : List Line) (s' : SysState),
        writerStep s p lines = some s' →
        s'.t.stdinWrites = s.t.stdinWrites ++ [expectedWrite p s.t.state] ∧
        (s'.t.state = ProcessState.paused ∨
         s'.t.state = ProcessState.ready)) ∧
    (∀ (turns : List (String × List Line)) (s s' : SysState),
        (s.t.state = ProcessState.ready ∨
         s.t.state = ProcessState.paused) →
        runWriter s turns = some s' →
        (s'.t.state = ProcessState.paused ∨
         s'.t.state = ProcessState.ready) ∧
        ∃ ws : List StdinWrite,
          s'.t.stdinWrites = s.t.stdinWrites ++ ws ∧
          ws.map StdinWrite.data = turns.map (fun t => t.1 ++ "\n") ∧
          ∀ w ∈ ws, w.stateAtWrite = ProcessState.processing ∧
            (w.stateOnEntry = ProcessState.ready ∨
             w.stateOnEntry = ProcessState.paused)) :=
  ⟨writerStep_some, runWriter_writes⟩

/-- Closed instance of C8. -/
theorem C8_witness :
    sAfterTurn.t.stdinWrites = sStarted.t.stdinWrites ++
      [expectedWrite "ping" sStarted.t.state] ∧
    (sAfterTurn.t.state = ProcessState.paused ∨
     sAfterTurn.t.state = ProcessState.ready) :=
  C8_writer_discipline.1 sStarted "ping"
    [Line.record contentRecord, Line.record resultRecord] sAfterTurn
    (by decide)

theorem recordsOf_cons (l : Line) (ls : List Line) :
    recordsOf (l :: ls) = recordsOf [l] ++ recordsOf ls := by
  cases l <;> simp [recordsOf]

theorem setState_pendingMessages (s : SysState) (ns : ProcessState) :
    (setState s ns).c.pendingMessages = s.c.pendingMessages := by
  unfold setState
  split
  · rfl
  · show (if ns = ProcessState.paused
          then { s.c with waitingForResult := 0 } else s.c).pendingMessages = _
    split <;> rfl

theorem handleLine_resultFree (s : SysState) (l : Line)
    (h : resultFree l) :
    (handleLine s l).c.waitingForResult = s.c.waitingForResult ∧
    (handleLine s l).c.pendingMessages =
      s.c.pendingMessages ++ recordsOf [l] := by
  cases l with
  | empty => exact ⟨rfl, (List.append_nil _).symm⟩
  | malformed raw => exact ⟨rfl, (List.append_nil _).symm⟩
  | record m =>
      have hr : ¬ m.type = "result" := h
      have hshow : handleLine s (Line.record m) =
          emitEvent (initCapture s m) (TransportEvent.message m) := by
        show emitEvent (if m.type = "result"
              then setState (initCapture s m) ProcessState.paused
              else initCapture s m) (TransportEvent.message m) = _
        rw [if_neg hr]
      rw [hshow]
      constructor
      · show (handleMessage (initCapture s m).c m).waitingForResult = _
        unfold handleMessage
        rw [if_neg hr]
        show (initCapture s m).c.waitingForResult = _
        rw [initCapture_c]
      · show (handleMessage (initCapture s m).c m).pendingMessages = _
        unfold handleMessage
        rw [if_neg hr]
        show (initCapture s m).c.pendingMessages ++ [m] = _
        rw [initCapture_c]
        rfl

theorem handleLine_result (s : SysState) (m : CLIOutput)
    (h : m.type = "result") :
    (handleLine s (Line.record m)).c.waitingForResult = 0 ∧
    (handleLine s (Line.record m)).c.pendingMessages =
      s.c.pendingMessages ++ [m] := by
  have hshow : handleLine s (Line.record m) =
      emitEvent (setState (initCapture s m) ProcessState.paused)
        (TransportEvent.message m) := by
    show emitEvent (if m.type = "result"
          then setState (initCapture s m) ProcessState.paused
          else initCapture s m) (TransportEvent.message m) = _
    rw [if_pos h]
  rw [hshow]
  constructor
  · show (handleMessage
        (setState (initCapture s m) ProcessState.paused).c m).waitingForResult = 0
    unfold handleMessage
    rw [if_pos h]
  · show (handleMessage
        (setState (initCapture s m) ProcessState.paused).c m).pendingMessages = _
    unfold handleMessage
    rw [if_pos h]
    show (setState (initCapture s m) ProcessState.paused).c.pendingMessages
        ++ [m] = _
    rw [setState_pendingMessages, initCapture_c]

theorem writerWrite_c (s : SysState) (prompt : String) :
    (writerWrite s prompt).c = s.c := by
  unfold writerWrite
  split
  · show (setState s ProcessState.processing).c = s.c
    unfold setState
    split
    · rfl
    · rfl
  · rfl

theorem submitQuery_ok (s s1 : SysState) (prompt : String)
    (h : submitQuery s prompt = Except.ok s1) :
    s1.c.pendingMessages = [] ∧
    s1.c.waitingForResult = s.c.waitingForResult + 1 := by
  unfold submitQuery at h
  by_cases h1 : s.c.started = false
  · rw [if_pos h1] at h
    cases h
  · rw [if_neg h1] at h
    by_cases h2 : clientIsAlive s = false
    · rw [if_pos h2] at h
      cases h
    · rw [if_neg h2] at h
      cases h
      rw [writerWrite_c]
      exact ⟨rfl, rfl⟩

theorem runTurn_collects (pre : List Line) (s : SysState) (m : CLIOutput)
    (rest : List Line)
    (hwfr : s.c.waitingForResult = 1)
    (hpre : ∀ l ∈ pre, resultFree l)
    (hm : m.type = "result") :
    ∃ s2, runTurn s (pre ++ Line.record m :: rest) =
      some (s.c.pendingMessages ++ (recordsOf pre ++ [m]), s2) := by
  induction pre generalizing s with
  | nil =>
      obtain ⟨h0, hpend⟩ := handleLine_result s m hm
      refine ⟨handleLine s (Line.record m), ?_⟩
      show (if s.c.waitingForResult ≠ 0 ∧
            (handleLine s (Line.record m)).c.waitingForResult = 0
            then some ((handleLine s (Line.record m)).c.pendingMessages,
                       handleLine s (Line.record m))
            else runTurn (handleLine s (Line.record m)) rest) = _
      rw [if_pos ⟨by rw [hwfr]; decide, h0⟩, hpend]
      simp [recordsOf]
  | cons l pre ih =>
      obtain ⟨hw, hp⟩ :=
        handleLine_resultFree s l (hpre l (List.mem_cons_self l pre))
      have hcond : ¬(s.c.waitingForResult ≠ 0 ∧
          (handleLine s l).c.waitingForResult = 0) := by
        intro hc
        rw [hw, hwfr] at hc
        exact absurd hc.2 (by decide)
      have hstep : runTurn s ((l :: pre) ++ Line.record m :: rest) =
          runTurn (handleLine s l) (pre ++ Line.record m :: rest) := by
        show (if s.c.waitingForResult ≠ 0 ∧
              (handleLine s l).c.waitingForResult = 0
              then some ((handleLine s l).c.pendingMessages, handleLine s l)
              else runTurn (handleLine s l) (pre ++ Line.record m :: rest)) = _
        rw [if_neg hcond]
      rw [hstep]
      obtain ⟨s2, hs2⟩ := ih (handleLine s l) (by rw [hw, hwfr])
        (fun x hx => hpre x (List.mem_cons_of_mem l hx))
      refine ⟨s2, ?_⟩
      rw [hs2, hp, recordsOf_cons l pre]
      simp [recordsOf, List.append_assoc]

/-- **C10.** For a resolved `query()`: the per-call buffer is reset to
empty at submission (and the resolver count incremented), and the
messages the call resolves with are exactly the records observed since
submission *including* the turn-terminating result record itself — the
result record is the last element of the returned buffer, not stripped
from it. -/
theorem C10_result_included_in_buffer :
    (∀ (s s1 : SysState) (prompt : String),
        submitQuery s prompt = Except.ok s1 →
        s1.c.pendingMessages = [] ∧
        s1.c.waitingForResult = s.c.waitingForResult + 1) ∧
    (∀ (s : SysState) (pre : List Line) (m : CLIOutput) (rest : List Line),
        s.c.waitingForResult = 1 →
        (∀ l ∈ pre, resultFree l) →
        m.type = "result" →
        ∃ s2, runTurn s (pre ++ Line.record m :: rest) =
          some (s.c.pendingMessages ++ (recordsOf pre ++ [m]), s2)) :=
  ⟨submitQuery_ok, fun s pre m rest h1 h2 h3 => runTurn_collects pre s m rest h1 h2 h3⟩

/-- Closed instance of C10: the concrete `"ping"` turn answered by one
content record and one result record resolves with both records, the
result last. -/
theorem C10_witness :
    sPending.c.pendingMessages = [] ∧
    ∃ s2, runTurn sPending
        ([Line.record contentRecord] ++ Line.record resultRecord :: []) =
      some (sPending.c.pendingMessages ++
        (recordsOf [Line.record contentRecord] ++ [resultRecord]), s2) :=
  ⟨(C10_result_included_in_buffer.1 sStarted sPending "ping" (by decide)).1,
   C10_result_included_in_buffer.2 sPending [Line.record contentRecord]
     resultRecord [] (by decide) (by decide) (by decide)⟩

end PersistentSdk
